import Mathlib

/-!
Shallow embedding of the trivia backend (`backend/flaskr/__init__.py`) and
verification of its specification claims.

The embedding models:
  * the data model (`Category`, `Question`) and an in-memory database state;
  * the pagination helper `paginate_questions`;
  * the six request handlers (`get_categories`, `get_questions`,
    `delete_a_question`, `add_question`, `questions_in_a_category`,
    `play_quizzes`).

Randomness (`random.randint`) is modelled by passing the drawn index as an
explicit argument.  A handler's outcome is an `Except HFail payload`: `.error
(.abort n)` models `abort(n)`, `.error (.exn msg)` models an uncaught Python
exception (which Flask turns into a 500), and a Flask view that falls off the
end returning `None` is modelled by a dedicated result constructor.
-/

namespace Trivia

/-- A value of the backing store / request layer as the SQL comparison sees
it: a Python integer or a Python/SQL string.  Values of different types never
compare equal (Python `3 == '3'` is `False`; the spec flags this exact
category-field type mismatch between the two query paths). -/
inductive PyVal where
  | pint (n : Int)
  | pstr (s : String)
  deriving DecidableEq, Repr

/-- Equality test between two values as the query layer evaluates it. -/
def pvEq : PyVal → PyVal → Bool
  | .pint a, .pint b => a == b
  | .pstr a, .pstr b => a == b
  | _, _ => false

/-- `Category` row: `{ id, type }` (primary key `id`). -/
structure Category where
  id : Nat
  type : String
  deriving DecidableEq, Repr

/-- `Question` row: `{ id, question, answer, category, difficulty }`.
The `category` column is a string column (`Column(String)` in the model
layer; the spec notes that one code path compares it as a string built with
`str(id)` and the other as the raw request value). -/
structure Question where
  id : Nat
  question : String
  answer : String
  category : String
  difficulty : Nat
  deriving DecidableEq, Repr

instance : Inhabited Question := ⟨⟨0, "", "", "", 0⟩⟩

/-- Modelled from the spec: `Question.format()` lives in `models.py`, which is
not part of the handler source; per the spec every Question is serialized as
`{id, question, answer, category, difficulty}`. -/
structure QuestionJson where
  id : Nat
  question : String
  answer : String
  category : String
  difficulty : Nat
  deriving DecidableEq, Repr

/-- Serialization of a question row, per the spec's response shape. -/
def Question.format (q : Question) : QuestionJson :=
  ⟨q.id, q.question, q.answer, q.category, q.difficulty⟩

/-- The database state: the two collections, in storage order. -/
structure DB where
  categories : List Category
  questions : List Question
  deriving Repr

/-- How a handler fails: `abort(code)` or an uncaught exception. -/
inductive HFail where
  | abort (code : Nat)
  | exn (msg : String)
  deriving DecidableEq, Repr

/-- `QUESTIONS_PER_PAGE = 10`. -/
def QUESTIONS_PER_PAGE : Nat := 10

/-- The slice `items[start:end]` of `paginate_questions` for a 1-based page:
`start = (page - 1) * QUESTIONS_PER_PAGE`, `end = start + QUESTIONS_PER_PAGE`.
(Python list slicing with these non-negative bounds is drop-then-take.) -/
def paginate (items : List α) (page : Nat) : List α :=
  (items.drop ((page - 1) * QUESTIONS_PER_PAGE)).take QUESTIONS_PER_PAGE

/-- `paginate_questions(request, selection)`: formats every question of the
selection and returns the requested page of the formatted list.  The page
number is read from the query string with default 1; it is passed here as an
argument. -/
def paginate_questions (page : Nat) (selection : List Question) : List QuestionJson :=
  paginate (selection.map Question.format) page

/-- Insertion of one element into a list sorted by a numeric key. -/
def insertByKey (key : α → Nat) (a : α) : List α → List α
  | [] => [a]
  | b :: bs => if key a ≤ key b then a :: b :: bs else b :: insertByKey key a bs

/-- Insertion sort by a numeric key; models `query.order_by(Model.id).all()`. -/
def sortByKey (key : α → Nat) : List α → List α
  | [] => []
  | a :: as => insertByKey key a (sortByKey key as)

theorem length_insertByKey (key : α → Nat) (a : α) (l : List α) :
    (insertByKey key a l).length = l.length + 1 := by
  induction l with
  | nil => rfl
  | cons b bs ih =>
      simp only [insertByKey]
      split <;> simp [ih]

theorem length_sortByKey (key : α → Nat) (l : List α) :
    (sortByKey key l).length = l.length := by
  induction l with
  | nil => rfl
  | cons a as ih => simp [sortByKey, length_insertByKey, ih]

/-- One page never holds more than `QUESTIONS_PER_PAGE` items and holds
exactly the items of the corresponding slice. -/
theorem length_paginate (items : List α) (page : Nat) :
    (paginate items page).length =
      min QUESTIONS_PER_PAGE (items.length - (page - 1) * QUESTIONS_PER_PAGE) := by
  simp [paginate, List.length_take, List.length_drop]

theorem paginate_eq_nil_of_start_ge (items : List α) (page : Nat)
    (h : items.length ≤ (page - 1) * QUESTIONS_PER_PAGE) :
    paginate items page = [] := by
  simp [paginate, List.drop_eq_nil_of_le h]

/-- Concatenating the first `k` pages yields the first `k * 10` items. -/
theorem join_paginate_take (items : List α) (k : Nat) :
    ((List.range k).map (fun i => paginate items (i + 1))).flatten =
      items.take (k * QUESTIONS_PER_PAGE) := by
  induction k with
  | zero => simp
  | succ k ih =>
      rw [List.range_succ, List.map_append, List.flatten_append]
      simp only [List.map_cons, List.map_nil, List.flatten_cons, List.flatten_nil,
        List.append_nil]
      rw [ih, Nat.succ_mul, List.take_add]
      simp [paginate]

/-! ### Case-insensitive containment (the `ilike` search filter) -/

/-- The case-folded code of a character: upper-case ASCII letters are mapped
to their lower-case code, every other character to its own code. -/
def lowerCode (c : Char) : Nat :=
  if 65 ≤ c.toNat && c.toNat ≤ 90 then c.toNat + 32 else c.toNat

/-- Bool test that `needle` is a prefix of `hay`. -/
def isPrefixCode : List Nat → List Nat → Bool
  | [], _ => true
  | _ :: _, [] => false
  | a :: as, b :: bs => a == b && isPrefixCode as bs

/-- Bool test that `needle` occurs contiguously somewhere in `hay`. -/
def isSubCode (needle : List Nat) : List Nat → Bool
  | [] => isPrefixCode needle []
  | c :: cs => isPrefixCode needle (c :: cs) || isSubCode needle cs

/-- `Question.question.ilike('%' + term + '%')`: case-insensitive containment
of `term` in the question text, compared on case-folded character codes.  SQL
wildcard characters occurring inside the term itself are not modelled; the
term is taken literally. -/
def ilikeContains (text term : String) : Bool :=
  isSubCode (term.data.map lowerCode) (text.data.map lowerCode)

/-! ### Query primitives -/

/-- `query.all()` in the ORM always returns a list (possibly empty), never
`None`; the handler for categories nevertheless tests the result against
`None`. -/
def queryAll (l : List α) : Option (List α) := some l

/-- `query.filter_by(...).one_or_none()`: `None` on zero matching rows, the
row on exactly one, and a `MultipleResultsFound` exception on more than one. -/
def oneOrNone : List α → Except HFail (Option α)
  | [] => .ok none
  | [a] => .ok (some a)
  | _ :: _ :: _ => .error (.exn "MultipleResultsFound")

/-! ### Request handlers -/

/-- `GET /categories` (`get_categories`): queries all categories, aborts 404
if the result `== None` (which `query.all()` never produces), and otherwise
answers with the id → type mapping. -/
def get_categories (db : DB) : Except HFail (List (Nat × String)) :=
  match queryAll db.categories with
  | none => .error (.abort 404)
  | some categories => .ok (categories.map fun c => (c.id, c.type))

/-- The success payload of `GET /questions`. -/
structure QuestionsResponse where
  questions : List QuestionJson
  totalQuestions : Nat
  categories : List (Nat × String)
  currentCategory : Option String
  deriving DecidableEq, Repr

/-- `GET /questions?page=N` (`get_questions`): all questions ordered by id,
404 when the requested page is empty, otherwise the page, the total count,
all categories and `currentCategory = None`. -/
def get_questions (db : DB) (page : Nat) : Except HFail QuestionsResponse :=
  let selection := sortByKey Question.id db.questions
  let totalQuestions := selection.length
  let currentQuestions := paginate_questions page selection
  if currentQuestions.length == 0 then
    .error (.abort 404)
  else
    .ok ⟨currentQuestions, totalQuestions,
      (sortByKey Category.id db.categories).map (fun c => (c.id, c.type)), none⟩

/-- `DELETE /questions/<id>` (`delete_a_question`): 404 when no question has
the id; otherwise the matched row is deleted (since `one_or_none` succeeded,
exactly one row carries the id, so removing every row with the id removes
precisely that row) and the handler reports success together with the new
database state. -/
def delete_a_question (db : DB) (id : Nat) : Except HFail (DB × Bool) :=
  match oneOrNone (db.questions.filter (fun q => q.id == id)) with
  | .error e => .error e
  | .ok none => .error (.abort 404)
  | .ok (some _) =>
      .ok ({ db with questions := db.questions.filter (fun q => !(q.id == id)) }, true)

/-- Modelled from the spec: the Storage Accessor operation
`getQuestion(id) -> Question or absent`.  No fetch-one-question handler
exists in the source; the delete-then-fetch property is stated against this
accessor. -/
def getQuestion (db : DB) (id : Nat) : Option Question :=
  db.questions.find? (fun q => q.id == id)

/-- The JSON body of `POST /questions`: each field is read with
`body.get(..., None)`. -/
structure AddBody where
  question : Option String
  answer : Option String
  category : Option PyVal
  difficulty : Option Nat
  searchTerm : Option String
  deriving Repr

/-- Python truthiness of the `searchTerm` field: `None` and the empty string
are falsy, every other string truthy. -/
def truthyStr : Option String → Bool
  | none => false
  | some s => !(s == "")

/-- Modelled from the spec: `Question(...).insert()` lives in `models.py`,
which is not part of the handler source.  Per the spec the insert fails with
a `ValidationError` when any required field is absent, and otherwise appends
a new row (with a fresh primary key); the category value is stored in the
string column. -/
def insertQuestion (db : DB) (q a : Option String) (c : Option PyVal) (d : Option Nat) :
    Except String DB :=
  match q, a, c, d with
  | some q, some a, some c, some d =>
      .ok { db with questions := db.questions ++
        [⟨(db.questions.map Question.id).foldr max 0 + 1, q, a,
          (match c with | .pint n => toString n | .pstr s => s), d⟩] }
  | _, _, _, _ => .error "ValidationError"

/-- The success payload of `POST /questions`: a search answer (paginated
matches, total count, `currentCategory = None`) or a bare creation success. -/
inductive AddResponse where
  | searchResult (questions : List QuestionJson) (totalQuestions : Nat)
  | created
  deriving DecidableEq, Repr

/-- `POST /questions` (`add_question`): when `searchTerm` is truthy, filter
the questions with `ilike`, 404 when nothing matches, else answer with the
requested page of the matches and the total count; otherwise try to insert a
new question, converting any exception into a 422.  The resulting database
state is returned alongside the response. -/
def add_question (db : DB) (page : Nat) (body : AddBody) : DB × Except HFail AddResponse :=
  let search_term := body.searchTerm
  if truthyStr search_term then
    let questions := db.questions.filter
      (fun q => ilikeContains q.question (search_term.getD ""))
    if !questions.isEmpty then
      (db, .ok (.searchResult (paginate_questions page questions) questions.length))
    else
      (db, .error (.abort 404))
  else
    match insertQuestion db body.question body.answer body.category body.difficulty with
    | .ok db2 => (db2, .ok .created)
    | .error _ => (db, .error (.abort 422))

/-- The success payload of `GET /categories/<id>/questions`. -/
structure CategoryQuestionsResponse where
  questions : List QuestionJson
  totalQuestions : Nat
  currentCategory : String
  deriving DecidableEq, Repr

/-- `GET /categories/<id>/questions` (`questions_in_a_category`): 404 when
the category id is unknown; otherwise the page of the questions whose
category column equals `str(id)`, their total count, and the category name.
No 404 is raised for an empty page. -/
def questions_in_a_category (db : DB) (id : Nat) (page : Nat) :
    Except HFail CategoryQuestionsResponse :=
  match oneOrNone (db.categories.filter (fun c => c.id == id)) with
  | .error e => .error e
  | .ok (some category) =>
      let questionsInCat := db.questions.filter
        (fun q => pvEq (.pstr q.category) (.pstr (toString id)))
      let currentQuestions := paginate_questions page questionsInCat
      .ok ⟨currentQuestions, questionsInCat.length, category.type⟩
  | .ok none => .error (.abort 404)

/-- The questions the handler filter selects for a category id: the rows
whose (string) category column equals `str(id)`. -/
def catQsOf (db : DB) (id : Nat) : List Question :=
  db.questions.filter (fun q => pvEq (.pstr q.category) (.pstr (toString id)))

/-- The outcome of `POST /quizzes`. -/
inductive QuizResult where
  | served (question : QuestionJson)
  | noResponse
  | httpError (code : Nat)
  deriving DecidableEq, Repr

/-- The pool `questionsQuery` of `play_quizzes`: all questions when the body
category id equals the integer 0, otherwise
`filter_by(category=quizCategory['id'])` with the raw body value compared
against the string category column. -/
def quizPool (db : DB) (quizCategoryId : PyVal) : List Question :=
  if pvEq quizCategoryId (.pint 0) then db.questions
  else db.questions.filter (fun q => pvEq (.pstr q.category) quizCategoryId)

/-- The tail of `play_quizzes` once the pool is known, with the value of
`random.randint(0, len(questionsQuery)-1)` passed in as `draw`: abort 404 on
an empty pool; otherwise draw `questionToPlay = pool[draw]` once.  The loop
`while questionToPlay.id not in previousQuestion:` returns on its first
iteration when the drawn question is un-served (its body re-reads the same
index and returns the question), and is skipped entirely when the drawn id is
already in `previous_questions` — the view then falls off the end and
produces no response. -/
def pickNext (pool : List Question) (previousQuestions : List Nat) (draw : Nat) : QuizResult :=
  if pool.length == 0 then
    .httpError 404
  else
    let questionToPlay := pool.getD draw default
    if questionToPlay.id ∉ previousQuestions then
      .served (pool.getD draw default).format
    else
      .noResponse

/-- `POST /quizzes` (`play_quizzes`): build the pool from the body category
id, then run the selection step on it. -/
def play_quizzes (db : DB) (quizCategoryId : PyVal) (previousQuestions : List Nat)
    (draw : Nat) : QuizResult :=
  pickNext (quizPool db quizCategoryId) previousQuestions draw

/-! ### Helper lemmas -/

/-- In a list whose keys are pairwise distinct, filtering for the key of a
member yields exactly that member. -/
theorem filter_key_eq_singleton (f : α → Nat) (l : List α) (k : Nat)
    (hnd : (l.map f).Nodup) (a : α) (ha : a ∈ l) (hk : f a = k) :
    l.filter (fun x => f x == k) = [a] := by
  induction l with
  | nil => cases ha
  | cons b bs ih =>
      rw [List.map_cons, List.nodup_cons] at hnd
      rcases List.mem_cons.mp ha with rfl | hmem
      · rw [List.filter_cons_of_pos (by simp [hk])]
        suffices h : bs.filter (fun x => f x == k) = [] by rw [h]
        refine List.filter_eq_nil_iff.mpr ?_
        intro x hx
        simp only [beq_iff_eq]
        intro heq
        exact hnd.1 (hk ▸ heq ▸ List.mem_map_of_mem f hx)
      · have hbk : (f b == k) = false := by
          simp only [beq_eq_false_iff_ne, ne_eq]
          intro heq
          exact hnd.1 (heq ▸ hk ▸ List.mem_map_of_mem f hmem)
        simp only [List.filter_cons, hbk, Bool.false_eq_true, if_false]
        exact ih hnd.2 hmem

/-- Every element of a page of `items` is an element of `items`. -/
theorem mem_of_mem_paginate {items : List α} {page : Nat} {a : α}
    (h : a ∈ paginate items page) : a ∈ items :=
  List.mem_of_mem_drop (List.mem_of_mem_take h)

/-- The general half of the quiz-picker contract that the source does meet:
whenever a question is served, its id is not among the previously served
ids. -/
theorem pickNext_served_not_previous (pool : List Question) (prev : List Nat)
    (draw : Nat) (q : QuestionJson) (h : pickNext pool prev draw = .served q) :
    q.id ∉ prev := by
  simp only [pickNext] at h
  split at h
  · cases h
  · split at h
    · cases h
      assumption
    · cases h

/-! ### The claims -/

/-- Claim C1: the picker indeed never returns a question whose id is in
`previousIds`, but it does not signal exhaustion exactly when all pool ids
have been served: at the concrete pool `[{id 1}, {id 2}]` with
`previousIds = [1]` and random draw 0, the view falls through and produces no
response even though the un-served question with id 2 is still in the pool
(and no dedicated `Exhausted` signal exists at all). -/
theorem pickNext_falls_through_with_candidate_left :
    pickNext [⟨1, "q1", "a1", "1", 1⟩, ⟨2, "q2", "a2", "1", 1⟩] [1] 0
      = QuizResult.noResponse
    ∧ (∃ q ∈ [(⟨1, "q1", "a1", "1", 1⟩ : Question), ⟨2, "q2", "a2", "1", 1⟩],
        q.id ∉ ([1] : List Nat)) := by
  refine ⟨by decide, ⟨⟨2, "q2", "a2", "1", 1⟩, by simp, by decide⟩⟩

/-- Claim C2: on the pool `[{id 1}, {id 2}, {id 3}]` with
`previousIds = [1, 2]` the picker is not deterministic in the random draw: it
returns question 3 only when the draw is index 2, and produces no response at
all when the draw is index 0 (or 1). -/
theorem pickNext_example_depends_on_draw :
    pickNext [⟨1, "qa", "aa", "1", 1⟩, ⟨2, "qb", "ab", "1", 1⟩, ⟨3, "qc", "ac", "1", 1⟩]
        [1, 2] 0 = QuizResult.noResponse
    ∧ pickNext [⟨1, "qa", "aa", "1", 1⟩, ⟨2, "qb", "ab", "1", 1⟩, ⟨3, "qc", "ac", "1", 1⟩]
        [1, 2] 2 = QuizResult.served ⟨3, "qc", "ac", "1", 1⟩ := by
  refine ⟨by decide, by decide⟩

/-- Claim C3: for page size 10 and any page ≥ 1, `paginate` returns exactly
the slice `items[(page-1)*10 : (page-1)*10 + 10]`, hence exactly
`min 10 (N - (page-1)*10)` items (empty when the start is past the end), and
the concatenation of pages `1 .. ceil(N/10)` is the original sequence. -/
theorem paginate_page_spec (items : List α) (page : Nat) (h : 1 ≤ page) :
    paginate items page = (items.drop ((page - 1) * 10)).take 10
    ∧ (paginate items page).length = min 10 (items.length - (page - 1) * 10)
    ∧ (items.length ≤ (page - 1) * 10 → paginate items page = [])
    ∧ ((List.range ((items.length + 9) / 10)).map
        (fun i => paginate items (i + 1))).flatten = items := by
  refine ⟨rfl, length_paginate items page, paginate_eq_nil_of_start_ge items page, ?_⟩
  rw [join_paginate_take]
  refine List.take_of_length_le ?_
  unfold QUESTIONS_PER_PAGE
  omega

/-- Witness for C3 at `items = [1, 2, 3]`, `page = 1`. -/
theorem paginate_page_spec_witness :
    1 ≤ 1
    ∧ (paginate ([1, 2, 3] : List Nat) 1 = (([1, 2, 3] : List Nat).drop ((1 - 1) * 10)).take 10
      ∧ (paginate ([1, 2, 3] : List Nat) 1).length
          = min 10 (([1, 2, 3] : List Nat).length - (1 - 1) * 10)
      ∧ (([1, 2, 3] : List Nat).length ≤ (1 - 1) * 10 → paginate ([1, 2, 3] : List Nat) 1 = [])
      ∧ ((List.range ((([1, 2, 3] : List Nat).length + 9) / 10)).map
          (fun i => paginate ([1, 2, 3] : List Nat) (i + 1))).flatten = [1, 2, 3]) :=
  ⟨by decide, paginate_page_spec [1, 2, 3] 1 (by decide)⟩

/-- Claim C4: with zero categories in the database, `get_categories` does not
fail with 404 — `query.all()` yields the empty list, the `== None` test is
false, and the handler answers successfully with an empty mapping. -/
theorem get_categories_empty_db_succeeds :
    get_categories ⟨[], []⟩ = .ok [] := rfl

/-- Claim C5: a creation request (no truthy `searchTerm`) in which the
`question` field or the `answer` field is absent fails with 422 and leaves
the stored collection of questions unchanged. -/
theorem add_question_missing_field_422 (db : DB) (page : Nat) (body : AddBody)
    (hs : truthyStr body.searchTerm = false)
    (hqa : body.question = none ∨ body.answer = none) :
    add_question db page body = (db, .error (.abort 422)) := by
  have hins : insertQuestion db body.question body.answer body.category body.difficulty
      = .error "ValidationError" := by
    rcases hqa with h | h
    · rw [h]; rfl
    · rw [h]; cases body.question <;> rfl
  simp [add_question, hs, hins]

/-- Witness for C5: the all-absent body on the empty database. -/
theorem add_question_missing_field_422_witness :
    truthyStr (AddBody.mk none none none none none).searchTerm = false
    ∧ ((AddBody.mk none none none none none).question = none
        ∨ (AddBody.mk none none none none none).answer = none)
    ∧ add_question ⟨[], []⟩ 1 (AddBody.mk none none none none none)
        = (⟨[], []⟩, .error (.abort 422)) :=
  ⟨rfl, Or.inl rfl,
    add_question_missing_field_422 ⟨[], []⟩ 1 (AddBody.mk none none none none none)
      rfl (Or.inl rfl)⟩

/-- A one-category, one-question database exhibiting the category type
mismatch of claim C6. -/
def dbC6 : DB := ⟨[⟨3, "Science"⟩], [⟨7, "Qc", "Ac", "3", 2⟩]⟩

/-- Counterexample to C6 as stated: for the existing category id 3, the
listing returns the question with id 7 (category column `"3"`), while the
quiz pool for the same id supplied as the JSON integer 3 is empty — the two
sets differ. -/
theorem listing_vs_quiz_pool_differ :
    questions_in_a_category dbC6 3 1 = .ok ⟨[⟨7, "Qc", "Ac", "3", 2⟩], 1, "Science"⟩
    ∧ quizPool dbC6 (.pint 3) = []
    ∧ ¬ (catQsOf dbC6 3 = quizPool dbC6 (.pint 3)) := by
  refine ⟨rfl, rfl, by decide⟩

/-- Claim C6 (amended): for every existing category id (with pairwise
distinct category ids), the listing succeeds and returns exactly the page of
the questions whose category column equals `str(id)` together with their full
count; the quiz operation, however, filters by the raw body value, so when
the body supplies the id as a JSON integer its pool is empty — the two
selections agree only when the category has no questions under either
comparison. -/
theorem questions_by_category_vs_quiz_pool (db : DB) (id : Nat) (page : Nat)
    (hnd : (db.categories.map Category.id).Nodup)
    (hex : ∃ c ∈ db.categories, c.id = id) :
    (∃ cat, cat ∈ db.categories ∧ cat.id = id
      ∧ questions_in_a_category db id page
          = .ok ⟨paginate_questions page (catQsOf db id), (catQsOf db id).length, cat.type⟩)
    ∧ (id ≠ 0 → quizPool db (.pint (id : Int)) = []) := by
  constructor
  · obtain ⟨cat, hc, hkey⟩ := hex
    refine ⟨cat, hc, hkey, ?_⟩
    unfold questions_in_a_category
    rw [filter_key_eq_singleton Category.id db.categories id hnd cat hc hkey]
    rfl
  · intro hz
    unfold quizPool
    rw [if_neg (by simp [pvEq, hz])]
    exact List.filter_eq_nil_iff.mpr (fun q _ => by simp [pvEq])

/-- Witness for the amended C6 at `dbC6`, id 3, page 1. -/
theorem questions_by_category_vs_quiz_pool_witness :
    ((dbC6.categories.map Category.id).Nodup ∧ ∃ c ∈ dbC6.categories, c.id = 3)
    ∧ ((∃ cat, cat ∈ dbC6.categories ∧ cat.id = 3
        ∧ questions_in_a_category dbC6 3 1
            = .ok ⟨paginate_questions 1 (catQsOf dbC6 3), (catQsOf dbC6 3).length, cat.type⟩)
      ∧ ((3 : Nat) ≠ 0 → quizPool dbC6 (.pint ((3 : Nat) : Int)) = [])) :=
  ⟨⟨by decide, ⟨⟨3, "Science"⟩, by decide, rfl⟩⟩,
    questions_by_category_vs_quiz_pool dbC6 3 1 (by decide) ⟨⟨3, "Science"⟩, by decide, rfl⟩⟩

/-- Eleven questions all of whose texts contain "who" case-insensitively. -/
def dbC7 : DB := ⟨[], (List.range 11).map (fun i => ⟨i + 1, "Who invented it?", "X", "1", 1⟩)⟩

/-- Counterexample to C7 as stated: with eleven matching questions and the
default page 1, the search answer carries only ten questions, not the whole
matching set. -/
theorem search_truncates_eleven_matches :
    (dbC7.questions.filter (fun q => ilikeContains q.question "who")).length = 11
    ∧ (add_question dbC7 1 ⟨none, none, none, none, some "who"⟩).2
        = .ok (.searchResult
            (paginate_questions 1
              (dbC7.questions.filter (fun q => ilikeContains q.question "who"))) 11)
    ∧ (paginate_questions 1
        (dbC7.questions.filter (fun q => ilikeContains q.question "who"))).length = 10 :=
  ⟨by decide, by rfl, by decide⟩

/-- Claim C7 (amended): for every truthy search term, the operation leaves
the database unchanged, fails with 404 exactly when zero questions match the
term case-insensitively, and otherwise answers with the requested page of
exactly the matching questions together with the full match count (so the
whole matching set is returned only when it fits one page). -/
theorem search_returns_page_of_matches (db : DB) (page : Nat) (body : AddBody) (term : String)
    (hterm : body.searchTerm = some term) (hne : term ≠ "") :
    (add_question db page body).1 = db
    ∧ (db.questions.filter (fun q => ilikeContains q.question term) = [] →
        (add_question db page body).2 = .error (.abort 404))
    ∧ (db.questions.filter (fun q => ilikeContains q.question term) ≠ [] →
        (add_question db page body).2
          = .ok (.searchResult
              (paginate_questions page
                (db.questions.filter (fun q => ilikeContains q.question term)))
              (db.questions.filter (fun q => ilikeContains q.question term)).length)
        ∧ ∀ r ∈ paginate_questions page
            (db.questions.filter (fun q => ilikeContains q.question term)),
            ∃ q, q ∈ db.questions ∧ ilikeContains q.question term = true ∧ r = q.format) := by
  have h1 : truthyStr (some term) = true := by simp [truthyStr, hne]
  have key : add_question db page body =
      (db, if (db.questions.filter (fun q => ilikeContains q.question term)).isEmpty
           then .error (.abort 404)
           else .ok (.searchResult
              (paginate_questions page
                (db.questions.filter (fun q => ilikeContains q.question term)))
              (db.questions.filter (fun q => ilikeContains q.question term)).length)) := by
    simp only [add_question, hterm, h1, if_true, Option.getD_some]
    cases hemp : (db.questions.filter (fun q => ilikeContains q.question term)).isEmpty <;>
      simp [hemp]
  refine ⟨by rw [key], ?_, ?_⟩
  · intro hnil
    rw [key]
    simp [hnil]
  · intro hm
    constructor
    · rw [key]
      simp [List.isEmpty_iff, hm]
    · intro r hr
      unfold paginate_questions at hr
      have hr2 := mem_of_mem_paginate hr
      obtain ⟨q, hq, hfq⟩ := List.mem_map.mp hr2
      have hf := List.mem_filter.mp hq
      exact ⟨q, hf.1, hf.2, hfq.symm⟩

/-- A single question whose text contains "who" case-insensitively. -/
def dbW7 : DB := ⟨[], [⟨1, "Who invented the light bulb?", "Edison", "4", 1⟩]⟩

/-- Witness for the amended C7 at `dbW7`, term "who", page 1. -/
theorem search_returns_page_of_matches_witness :
    ((AddBody.mk none none none none (some "who")).searchTerm = some "who" ∧ "who" ≠ "")
    ∧ ((add_question dbW7 1 (AddBody.mk none none none none (some "who"))).1 = dbW7
      ∧ (dbW7.questions.filter (fun q => ilikeContains q.question "who") = [] →
          (add_question dbW7 1 (AddBody.mk none none none none (some "who"))).2
            = .error (.abort 404))
      ∧ (dbW7.questions.filter (fun q => ilikeContains q.question "who") ≠ [] →
          (add_question dbW7 1 (AddBody.mk none none none none (some "who"))).2
            = .ok (.searchResult
                (paginate_questions 1
                  (dbW7.questions.filter (fun q => ilikeContains q.question "who")))
                (dbW7.questions.filter (fun q => ilikeContains q.question "who")).length)
          ∧ ∀ r ∈ paginate_questions 1
              (dbW7.questions.filter (fun q => ilikeContains q.question "who")),
              ∃ q, q ∈ dbW7.questions ∧ ilikeContains q.question "who" = true
                ∧ r = q.format)) :=
  ⟨⟨rfl, by decide⟩,
    search_returns_page_of_matches dbW7 1 (AddBody.mk none none none none (some "who"))
      "who" rfl (by decide)⟩

/-- Claim C8: whenever the pool the quiz operation selects (the whole table
for category id 0, the category filter otherwise) is empty, `play_quizzes`
aborts with 404. -/
theorem play_quizzes_404_on_empty_pool (db : DB) (qc : PyVal) (prev : List Nat)
    (draw : Nat) (h : quizPool db qc = []) :
    play_quizzes db qc prev draw = .httpError 404 := by
  unfold play_quizzes
  rw [h]
  rfl

/-- Witness for C8 on the empty database with category id 0. -/
theorem play_quizzes_404_on_empty_pool_witness :
    quizPool ⟨[], []⟩ (.pint 0) = []
    ∧ play_quizzes ⟨[], []⟩ (.pint 0) [] 0 = .httpError 404 :=
  ⟨rfl, play_quizzes_404_on_empty_pool ⟨[], []⟩ (.pint 0) [] 0 rfl⟩

/-- Claim C9: over a database with pairwise distinct question ids, deleting
an existing question succeeds and a subsequent fetch of that id finds
nothing, while deleting an unknown id aborts with 404 (and in particular
never reports success). -/
theorem delete_then_fetch (db : DB) (id : Nat)
    (hnd : (db.questions.map Question.id).Nodup) :
    ((getQuestion db id).isSome = true →
        delete_a_question db id
          = .ok ({ db with questions := db.questions.filter (fun q => !(q.id == id)) }, true)
        ∧ getQuestion
            { db with questions := db.questions.filter (fun q => !(q.id == id)) } id = none)
    ∧ (getQuestion db id = none → delete_a_question db id = .error (.abort 404)) := by
  constructor
  · intro hsome
    obtain ⟨q, hq⟩ := Option.isSome_iff_exists.mp hsome
    have hmem : q ∈ db.questions := List.mem_of_find?_eq_some hq
    have hkey : q.id = id := by simpa using List.find?_some hq
    constructor
    · unfold delete_a_question
      rw [filter_key_eq_singleton Question.id db.questions id hnd q hmem hkey]
      rfl
    · unfold getQuestion
      refine List.find?_eq_none.mpr ?_
      intro x hx
      have hx2 := List.mem_filter.mp hx
      simpa using hx2.2
  · intro hnone
    have hfil : db.questions.filter (fun q => q.id == id) = [] :=
      List.filter_eq_nil_iff.mpr (List.find?_eq_none.mp hnone)
    unfold delete_a_question
    rw [hfil]
    rfl

/-- A database holding the single question with id 5. -/
def dbW9 : DB := ⟨[], [⟨5, "q5", "a5", "1", 1⟩]⟩

/-- Witness for C9 at `dbW9` and id 5. -/
theorem delete_then_fetch_witness :
    (dbW9.questions.map Question.id).Nodup
    ∧ (((getQuestion dbW9 5).isSome = true →
          delete_a_question dbW9 5
            = .ok ({ dbW9 with
                questions := dbW9.questions.filter (fun q => !(q.id == 5)) }, true)
          ∧ getQuestion
              { dbW9 with
                questions := dbW9.questions.filter (fun q => !(q.id == 5)) } 5 = none)
      ∧ (getQuestion dbW9 5 = none → delete_a_question dbW9 5 = .error (.abort 404))) :=
  ⟨by decide, delete_then_fetch dbW9 5 (by decide)⟩

/-- The success shape of the category-scoped listing for an existing
category: the requested page of its questions and the full count. -/
theorem questions_in_a_category_ok (db : DB) (id page : Nat) (cat : Category)
    (hnd : (db.categories.map Category.id).Nodup) (hc : cat ∈ db.categories)
    (hkey : cat.id = id) :
    questions_in_a_category db id page
      = .ok ⟨paginate_questions page (catQsOf db id), (catQsOf db id).length, cat.type⟩ := by
  unfold questions_in_a_category
  rw [filter_key_eq_singleton Category.id db.categories id hnd cat hc hkey]
  rfl

/-- Claim C10: for an existing category id the category-scoped listing always
succeeds — with the page of its questions and the true total, the page being
empty when the category has no questions or the page is past the end — while
the all-questions listing aborts with 404 whenever its requested page is
empty. -/
theorem category_listing_tolerates_empty_page (db : DB) (id page : Nat)
    (hnd : (db.categories.map Category.id).Nodup)
    (hex : ∃ c ∈ db.categories, c.id = id) :
    (∃ cat, cat ∈ db.categories ∧ cat.id = id
      ∧ questions_in_a_category db id page
          = .ok ⟨paginate_questions page (catQsOf db id), (catQsOf db id).length, cat.type⟩
      ∧ ((catQsOf db id).length ≤ (page - 1) * 10 →
          paginate_questions page (catQsOf db id) = []))
    ∧ (∀ p, paginate_questions p (sortByKey Question.id db.questions) = [] →
        get_questions db p = .error (.abort 404)) := by
  constructor
  · obtain ⟨cat, hc, hkey⟩ := hex
    refine ⟨cat, hc, hkey, questions_in_a_category_ok db id page cat hnd hc hkey, ?_⟩
    intro hle
    unfold paginate_questions
    refine paginate_eq_nil_of_start_ge _ _ ?_
    rw [List.length_map]
    exact hle
  · intro p hp
    simp [get_questions, hp]

/-- A database with one category (id 2) and zero questions. -/
def dbW10 : DB := ⟨[⟨2, "Art"⟩], []⟩

/-- Witness for C10 at `dbW10`, id 2, page 1. -/
theorem category_listing_tolerates_empty_page_witness :
    ((dbW10.categories.map Category.id).Nodup ∧ ∃ c ∈ dbW10.categories, c.id = 2)
    ∧ ((∃ cat, cat ∈ dbW10.categories ∧ cat.id = 2
        ∧ questions_in_a_category dbW10 2 1
            = .ok ⟨paginate_questions 1 (catQsOf dbW10 2), (catQsOf dbW10 2).length, cat.type⟩
        ∧ ((catQsOf dbW10 2).length ≤ (1 - 1) * 10 →
            paginate_questions 1 (catQsOf dbW10 2) = []))
      ∧ (∀ p, paginate_questions p (sortByKey Question.id dbW10.questions) = [] →
          get_questions dbW10 p = .error (.abort 404))) :=
  ⟨⟨by decide, ⟨⟨2, "Art"⟩, by decide, rfl⟩⟩,
    category_listing_tolerates_empty_page dbW10 2 1 (by decide)
      ⟨⟨2, "Art"⟩, by decide, rfl⟩⟩

end Trivia
